import Mathlib

/-!
A shallow embedding of the knowledge-base API server (src/api.py):
the document store operations (upload, list, delete), the single-shot and
streaming chat orchestrators, and the webhook dispatcher, together with
theorems settling the specification claims about them.

Python strings carrying answer text are embedded as lists of characters,
file contents as lists of bytes, and the on-disk layout as a finite map
from knowledge-base id to its directory of files.
-/

/-- Byte string: the content of an uploaded file (Python bytes). -/
abbrev Bytes := List Nat

/-- Character content of a Python str carrying answer text. -/
abbrev Text := List Char

/-- Chat history: list of (question, answer) pairs (Python List[List[str]]). -/
abbrev Hist := List (String × String)

/-- UPLOAD_ROOT_PATH from configs.model_config (config module outside the
embedded source; the value is an opaque path root, only used for joining). -/
def UPLOAD_ROOT_PATH : String := "upload_root"

/-- VS_ROOT_PATH from configs.model_config (opaque path root). -/
def VS_ROOT_PATH : String := "vector_store"

/-- os.path.join as used on the flat two-level paths of api.py. -/
def os_path_join (a b : String) : String := a ++ "/" ++ b

/-- os.path.split(p)[-1]: the basename of a path. -/
def basename (p : String) : String := (p.splitOn "/").getLastD p

/-- get_folder_path in api.py. -/
def get_folder_path (local_doc_id : String) : String :=
  os_path_join UPLOAD_ROOT_PATH local_doc_id

/-- get_vs_path in api.py. -/
def get_vs_path (local_doc_id : String) : String :=
  os_path_join VS_ROOT_PATH local_doc_id

/-- get_file_path in api.py. -/
def get_file_path (local_doc_id : String) (doc_name : String) : String :=
  os_path_join (os_path_join UPLOAD_ROOT_PATH local_doc_id) doc_name

/-- The on-disk state the document endpoints touch: for each knowledge base
whose upload folder exists, the regular files inside it (name, content);
plus the set of knowledge bases whose vector-store directory exists. -/
structure Store where
  kbDirs : List (String × List (String × Bytes))
  vsDirs : List String
deriving DecidableEq, Repr

/-- Directory listing of a knowledge base's upload folder, if it exists. -/
def Store.filesOf (st : Store) (kb : String) : List (String × Bytes) :=
  (st.kbDirs.lookup kb).getD []

/-- os.path.exists on a knowledge base's upload folder. -/
def Store.dirExists (st : Store) (kb : String) : Bool :=
  (st.kbDirs.lookup kb).isSome

/-- Content of a file inside a knowledge base folder, when present. -/
def Store.getFile (st : Store) (kb fname : String) : Option Bytes :=
  (st.kbDirs.lookup kb).bind (fun files => files.lookup fname)

/-- os.makedirs(saved_path) guarded by os.path.exists: create the folder
if absent, otherwise leave the store unchanged. -/
def Store.makedirs (st : Store) (kb : String) : Store :=
  if (st.kbDirs.lookup kb).isSome then st else ⟨st.kbDirs ++ [(kb, [])], st.vsDirs⟩

/-- Replace or append an entry in a directory listing. -/
def setEntry (files : List (String × Bytes)) (fname : String) (content : Bytes) :
    List (String × Bytes) :=
  if files.any (fun p => p.1 == fname) then
    files.map (fun p => if p.1 == fname then (fname, content) else p)
  else files ++ [(fname, content)]

/-- open(file_path, "wb") followed by a full write: truncate and store. -/
def Store.setFile (st : Store) (kb fname : String) (content : Bytes) : Store :=
  ⟨st.kbDirs.map (fun e => if e.1 == kb then (e.1, setEntry e.2 fname content) else e),
   st.vsDirs⟩

/-- open(file_path, "ab+") followed by a write: append to the existing
content (creating the file when absent). -/
def Store.appendFile (st : Store) (kb fname : String) (content : Bytes) : Store :=
  st.setFile kb fname (((st.getFile kb fname).getD []) ++ content)

/-- os.remove on a file inside a knowledge base folder. -/
def Store.removeFile (st : Store) (kb fname : String) : Store :=
  ⟨st.kbDirs.map (fun e => if e.1 == kb then (e.1, e.2.filter (fun p => p.1 != fname)) else e),
   st.vsDirs⟩

/-- shutil.rmtree on a knowledge base's upload folder. -/
def Store.removeDir (st : Store) (kb : String) : Store :=
  ⟨st.kbDirs.filter (fun e => e.1 != kb), st.vsDirs⟩

/-- os.path.exists on a knowledge base's vector-store directory. -/
def Store.vsExists (st : Store) (kb : String) : Bool :=
  st.vsDirs.contains kb

/-- Record that init_knowledge_vector_store materialised an index. -/
def Store.addVs (st : Store) (kb : String) : Store :=
  ⟨st.kbDirs, if st.vsDirs.contains kb then st.vsDirs else st.vsDirs ++ [kb]⟩

/-- Number of directory entries of a knowledge base carrying a given name. -/
def Store.countName (st : Store) (kb fname : String) : Nat :=
  (st.filesOf kb).countP (fun p => p.1 == fname)

/-- The value list_docs returns: either the plain error dict
(code, msg) or the pydantic ListDocsResponse model (code, msg, data). -/
inductive ListDocsResult where
  | errDict (code : Nat) (msg : String)
  | respModel (code : Nat) (msg : String) (data : List String)
deriving DecidableEq, Repr

/-- list_docs in api.py, for the branch where a knowledge_base_id is given
(the only branch delete_docs reaches) and the listing of all knowledge
bases otherwise. -/
def list_docs (st : Store) (knowledge_base_id : Option String) : ListDocsResult :=
  match knowledge_base_id with
  | some kb =>
    match st.kbDirs.lookup kb with
    | none => .errDict 1 ("Knowledge base " ++ kb ++ " not found")
    | some files => .respModel 200 "success" (files.map (fun p => p.1))
  | none => .respModel 200 "success" (st.kbDirs.map (fun e => e.1))

/-- Python subscript remain_docs["code"]: succeeds on the plain dict,
raises TypeError on the pydantic model (BaseModel has no item access). -/
def ListDocsResult.getItemCode : ListDocsResult → Except String Nat
  | .errDict c _ => .ok c
  | .respModel _ _ _ => .error "TypeError: ListDocsResponse object is not subscriptable"

/-- Python subscript remain_docs["data"], with the same TypeError on the model. -/
def ListDocsResult.getItemData : ListDocsResult → Except String (List String)
  | .errDict _ _ => .error "KeyError: data"
  | .respModel _ _ _ => .error "TypeError: ListDocsResponse object is not subscriptable"

/-- The BaseResponse pydantic model (defaults code 200, msg "success"). -/
structure BaseResponse where
  code : Nat
  msg : String
deriving DecidableEq, Repr

/-- How a delete_docs call terminates: a structured error dict, a normal
BaseResponse, or an uncaught Python exception (surfaced as HTTP 500). -/
inductive DeleteOutcome where
  | errDict (code : Nat) (msg : String)
  | ok (r : BaseResponse)
  | pyError (msg : String)
deriving DecidableEq, Repr

/-- Observable effects of one delete_docs call: the resulting store, the
arguments of the init_knowledge_vector_store rebuild call if one was made
(folder path, vector-store path), and the outcome. -/
structure DeleteResult where
  store : Store
  rebuildCall : Option (String × String)
  outcome : DeleteOutcome
deriving DecidableEq, Repr

/-- delete_docs in api.py. The doc_name branch removes the file, then
evaluates remain_docs["code"] on the value returned by list_docs; when the
folder still exists that value is the pydantic model, so the subscript
raises TypeError before either the rmtree or the rebuild branch runs. -/
def delete_docs (st : Store) (knowledge_base_id : String) (doc_name : Option String) :
    DeleteResult :=
  if (st.kbDirs.lookup knowledge_base_id).isNone then
    ⟨st, none, .errDict 1 ("Knowledge base " ++ knowledge_base_id ++ " not found")⟩
  else
    match doc_name with
    | some doc =>
      if (st.getFile knowledge_base_id doc).isSome then
        let st1 := st.removeFile knowledge_base_id doc
        let remain_docs := list_docs st1 (some knowledge_base_id)
        match remain_docs.getItemCode with
        | .error e => ⟨st1, none, .pyError e⟩
        | .ok c =>
          if c ≠ 0 then
            ⟨st1.removeDir knowledge_base_id, none, .ok ⟨200, "success"⟩⟩
          else
            match remain_docs.getItemData with
            | .error e => ⟨st1, none, .pyError e⟩
            | .ok data =>
              if data.length = 0 then
                ⟨st1.removeDir knowledge_base_id, none, .ok ⟨200, "success"⟩⟩
              else
                ⟨st1, some (get_folder_path knowledge_base_id, get_vs_path knowledge_base_id),
                 .ok ⟨200, "success"⟩⟩
      else ⟨st, none, .errDict 1 ("document " ++ doc ++ " not found")⟩
    | none => ⟨st.removeDir knowledge_base_id, none, .ok ⟨200, "success"⟩⟩

/-- A knowledge base kb1 holding two documents. -/
def stTwoDocs : Store := ⟨[("kb1", [("a.txt", [1]), ("b.txt", [2])])], []⟩

/-- A knowledge base kb1 holding a single document. -/
def stOneDoc : Store := ⟨[("kb1", [("a.txt", [1])])], []⟩

/-- Claim C1: deleting an existing doc_name from a knowledge base with two
documents is claimed to remove only that file, keep the directory, and
trigger a full rebuild over the remainder, and deleting the last document
is claimed to remove the whole directory. The code removes the file and
then subscripts the pydantic ListDocsResponse (remain_docs["code"]), which
raises TypeError, so no rebuild is ever triggered and in the last-document
case the directory survives: both sub-cases of the claim fail. -/
theorem delete_docs_nonlast_crashes_no_rebuild :
    delete_docs stTwoDocs "kb1" (some "a.txt") =
      ⟨⟨[("kb1", [("b.txt", [2])])], []⟩, none,
        .pyError "TypeError: ListDocsResponse object is not subscriptable"⟩ ∧
    delete_docs stOneDoc "kb1" (some "a.txt") =
      ⟨⟨[("kb1", [])], []⟩, none,
        .pyError "TypeError: ListDocsResponse object is not subscriptable"⟩ ∧
    (delete_docs stOneDoc "kb1" (some "a.txt")).store.dirExists "kb1" = true := by
  refine ⟨?_, ?_, ?_⟩ <;> rfl

/-- The two indexing operations of LocalDocQA the upload endpoints invoke
(external QA engine): the files each reports as incorporated. -/
structure Engine where
  addFilesResult : List String → List String
  initResult : List String → List String

/-- Which indexing call an upload performed: none, an incremental
add_files_to_knowledge_vector_store(vs_path, file_paths), or a full
init_knowledge_vector_store(file_paths, vs_path). -/
inductive IndexOp where
  | noOp
  | addFiles (vs_path : String) (file_paths : List String)
  | initBuild (file_paths : List String) (vs_path : String)
deriving DecidableEq, Repr

/-- Observable effects of one upload call: resulting store, the indexing
call made, and the HTTP response. -/
structure UploadResult where
  store : Store
  indexOp : IndexOp
  resp : BaseResponse
deriving DecidableEq, Repr

/-- The duplicate test of both upload endpoints:
os.path.exists(file_path) and os.path.getsize(file_path) == len(file_content). -/
def isDupUpload (st : Store) (kb fname : String) (content : Bytes) : Bool :=
  match st.getFile kb fname with
  | some old => old.length == content.length
  | none => false

/-- single_upload_file in api.py: create the folder if needed, skip a
same-name same-size file with a success notice, otherwise overwrite
(mode "wb") and either extend the existing index with just this file or
run a full initial build over just this file. -/
def single_upload_file (eng : Engine) (st : Store) (knowledge_base_id : String)
    (filename : String) (file_content : Bytes) : UploadResult :=
  let st0 := st.makedirs knowledge_base_id
  let file_path := get_file_path knowledge_base_id filename
  if isDupUpload st0 knowledge_base_id filename file_content then
    ⟨st0, .noOp, ⟨200, "文件 " ++ filename ++ " 已存在。"⟩⟩
  else
    let st1 := st0.setFile knowledge_base_id filename file_content
    if st1.vsExists knowledge_base_id then
      let added := eng.addFilesResult [file_path]
      if added.length > 0 then
        ⟨st1, .addFiles (get_vs_path knowledge_base_id) [file_path],
         ⟨200, "文件 " ++ filename ++ " 已上传并已加载知识库，请开始提问。"⟩⟩
      else
        ⟨st1, .addFiles (get_vs_path knowledge_base_id) [file_path],
         ⟨500, "文件上传失败，请重新上传"⟩⟩
    else
      let loaded := eng.initResult [file_path]
      if loaded.length > 0 then
        ⟨st1.addVs knowledge_base_id, .initBuild [file_path] (get_vs_path knowledge_base_id),
         ⟨200, "文件 " ++ filename ++ " 已上传至新的知识库，并已加载知识库，请开始提问。"⟩⟩
      else
        ⟨st1, .initBuild [file_path] (get_vs_path knowledge_base_id),
         ⟨500, "文件上传失败，请重新上传"⟩⟩

/-- The success message of upload_file, joining the basenames of the
loaded files with 、. -/
def uploadedMsg (loaded : List String) : String :=
  "已上传 " ++ String.intercalate "、" (loaded.map basename) ++
    " 至知识库，并已加载知识库，请开始提问"

/-- upload_file in api.py (the multi-file endpoint): create the folder if
needed; for each file skip it when a same-name same-size file exists,
otherwise write with mode "ab+" (append) and collect its path; if any
path was collected run init_knowledge_vector_store over exactly those
paths; report 500 when nothing was loaded, including the case where every
file in the batch was skipped as a duplicate. -/
def upload_file (eng : Engine) (st : Store) (knowledge_base_id : String)
    (files : List (String × Bytes)) : UploadResult :=
  let st0 := st.makedirs knowledge_base_id
  let step := fun (acc : Store × List String) (fb : String × Bytes) =>
    if isDupUpload acc.1 knowledge_base_id fb.1 fb.2 then acc
    else (acc.1.appendFile knowledge_base_id fb.1 fb.2,
          acc.2 ++ [get_file_path knowledge_base_id fb.1])
  let result := files.foldl step (st0, [])
  let st1 := result.1
  let filelist := result.2
  if filelist.isEmpty then
    ⟨st1, .noOp, ⟨500, "文件未成功加载，请重新上传文件"⟩⟩
  else
    let loaded := eng.initResult filelist
    if loaded.length > 0 then
      ⟨st1.addVs knowledge_base_id, .initBuild filelist (get_vs_path knowledge_base_id),
       ⟨200, uploadedMsg loaded⟩⟩
    else
      ⟨st1, .initBuild filelist (get_vs_path knowledge_base_id),
       ⟨500, "文件未成功加载，请重新上传文件"⟩⟩

/-- An engine that accepts every file it is given. -/
def engAcceptAll : Engine := ⟨fun l => l, fun l => l⟩

/-- A knowledge base kb1 already holding a.txt with content [1, 2]. -/
def stHasA : Store := ⟨[("kb1", [("a.txt", [1, 2])])], []⟩

/-- Claim C3, counterexample: re-uploading a.txt with two (different)
bytes — same name, same byte length — through the multi-file upload
endpoint is reported with code 500, a generic error, not as a
success-with-notice, refuting the claim's "never as an error". -/
theorem upload_file_duplicate_reports_error :
    (upload_file engAcceptAll stHasA "kb1" [("a.txt", [0, 0])]).resp.code = 500 ∧
    ¬ (upload_file engAcceptAll stHasA "kb1" [("a.txt", [0, 0])]).resp.code = 200 := by
  refine ⟨rfl, ?_⟩
  intro h
  simp [upload_file, engAcceptAll, stHasA, isDupUpload, Store.makedirs, Store.getFile] at h

/-- The upload folder still exists whenever a file is found inside it. -/
theorem dirExists_of_getFile {st : Store} {kb name : String} {old : Bytes}
    (hget : st.getFile kb name = some old) : st.dirExists kb = true := by
  unfold Store.getFile at hget
  unfold Store.dirExists
  cases h : st.kbDirs.lookup kb with
  | none => rw [h] at hget; simp at hget
  | some files => simp

/-- makedirs is the identity when the folder already exists. -/
theorem makedirs_of_dirExists {st : Store} {kb : String}
    (hd : st.dirExists kb = true) : st.makedirs kb = st := by
  unfold Store.dirExists at hd
  unfold Store.makedirs
  simp [hd]

/-- Claim C3, amended: re-uploading a same-name same-size file is a no-op
on disk on both endpoints and leaves exactly one file of that name, and
the single-file endpoint reports it as a success-with-notice (200 with an
already-exists message); the multi-file endpoint, however, reports the
all-duplicates batch as a generic failure (500). -/
theorem duplicate_upload_noop_statuses (eng : Engine) (st : Store) (kb name : String)
    (bs old : Bytes) (hget : st.getFile kb name = some old)
    (hlen : old.length = bs.length) (hcount : st.countName kb name = 1) :
    single_upload_file eng st kb name bs =
      ⟨st, .noOp, ⟨200, "文件 " ++ name ++ " 已存在。"⟩⟩ ∧
    (single_upload_file eng st kb name bs).store.countName kb name = 1 ∧
    upload_file eng st kb [(name, bs)] =
      ⟨st, .noOp, ⟨500, "文件未成功加载，请重新上传文件"⟩⟩ := by
  have hmk : st.makedirs kb = st := makedirs_of_dirExists (dirExists_of_getFile hget)
  have hdup : isDupUpload st kb name bs = true := by
    unfold isDupUpload
    rw [hget]
    simp [hlen]
  have h1 : single_upload_file eng st kb name bs =
      ⟨st, .noOp, ⟨200, "文件 " ++ name ++ " 已存在。"⟩⟩ := by
    simp only [single_upload_file, hmk, hdup, if_true]
  refine ⟨h1, ?_, ?_⟩
  · rw [h1]
    exact hcount
  · simp only [upload_file, List.foldl_cons, List.foldl_nil, hmk, hdup, if_true,
      List.isEmpty_nil]

/-- Witness for the amended C3 at a concrete store: kb1 holds a.txt with
bytes [1, 2] and a.txt is re-uploaded with the two bytes [0, 0]. -/
theorem duplicate_upload_noop_statuses_witness :
    single_upload_file engAcceptAll stHasA "kb1" "a.txt" [0, 0] =
      ⟨stHasA, .noOp, ⟨200, "文件 " ++ "a.txt" ++ " 已存在。"⟩⟩ ∧
    (single_upload_file engAcceptAll stHasA "kb1" "a.txt" [0, 0]).store.countName "kb1" "a.txt" = 1 ∧
    upload_file engAcceptAll stHasA "kb1" [("a.txt", [0, 0])] =
      ⟨stHasA, .noOp, ⟨500, "文件未成功加载，请重新上传文件"⟩⟩ :=
  duplicate_upload_noop_statuses engAcceptAll stHasA "kb1" "a.txt" [0, 0] [1, 2]
    (by rfl) (by rfl) (by rfl)

/-- Claim C4: a same-named upload of different size is claimed to leave the
stored content equal to the uploaded bytes. The multi-file endpoint opens
the file with mode "ab+" and appends, so uploading [9, 9, 9] over the
existing a.txt = [1, 2] leaves [1, 2, 9, 9, 9]; the single-file endpoint
uses mode "wb" and does satisfy the claim. -/
theorem upload_file_append_mode_corrupts :
    (upload_file engAcceptAll stHasA "kb1" [("a.txt", [9, 9, 9])]).store.getFile
      "kb1" "a.txt" = some [1, 2, 9, 9, 9] ∧
    (single_upload_file engAcceptAll stHasA "kb1" "a.txt" [9, 9, 9]).store.getFile
      "kb1" "a.txt" = some [9, 9, 9] :=
  ⟨rfl, rfl⟩

/-- Neither makedirs nor setFile touches the vector-store directories. -/
theorem vsExists_makedirs (st : Store) (kb kb' : String) :
    (st.makedirs kb).vsExists kb' = st.vsExists kb' := by
  unfold Store.makedirs Store.vsExists
  split <;> rfl

/-- setFile keeps the vector-store directories unchanged. -/
theorem vsExists_setFile (st : Store) (kb fname : String) (c : Bytes) (kb' : String) :
    (st.setFile kb fname c).vsExists kb' = st.vsExists kb' := rfl

/-- Claim C6: a single-file upload that is not skipped as a duplicate
extends the existing index incrementally with only the uploaded file when
an index exists (add_files_to_knowledge_vector_store, never a full
rebuild), and performs a full initial build over just the uploaded file
when no index exists yet. -/
theorem single_upload_index_policy (eng : Engine) (st : Store) (kb name : String)
    (bs : Bytes) (hnodup : isDupUpload (st.makedirs kb) kb name bs = false) :
    (st.vsExists kb = true →
      (single_upload_file eng st kb name bs).indexOp =
        .addFiles (get_vs_path kb) [get_file_path kb name]) ∧
    (st.vsExists kb = false →
      (single_upload_file eng st kb name bs).indexOp =
        .initBuild [get_file_path kb name] (get_vs_path kb)) := by
  constructor
  · intro hvs
    simp only [single_upload_file, hnodup, Bool.false_eq_true, if_false,
      vsExists_setFile, vsExists_makedirs, hvs, if_true]
    split <;> rfl
  · intro hvs
    simp only [single_upload_file, hnodup, Bool.false_eq_true, if_false,
      vsExists_setFile, vsExists_makedirs, hvs]
    split <;> rfl

/-- A store whose kb1 folder is empty but whose kb1 index exists. -/
def stEmptyWithVs : Store := ⟨[("kb1", [])], ["kb1"]⟩

/-- Witness for C6: uploading a fresh new.txt to kb1, whose index already
exists, is dispatched to the incremental extension call. -/
theorem single_upload_index_policy_witness :
    (stEmptyWithVs.vsExists "kb1" = true →
      (single_upload_file engAcceptAll stEmptyWithVs "kb1" "new.txt" [7]).indexOp =
        .addFiles (get_vs_path "kb1") [get_file_path "kb1" "new.txt"]) ∧
    (stEmptyWithVs.vsExists "kb1" = false →
      (single_upload_file engAcceptAll stEmptyWithVs "kb1" "new.txt" [7]).indexOp =
        .initBuild [get_file_path "kb1" "new.txt"] (get_vs_path "kb1")) :=
  single_upload_index_policy engAcceptAll stEmptyWithVs "kb1" "new.txt" [7] (by rfl)

/-- One retrieved source document as the QA engine returns it:
metadata source path, excerpt text, and the relevance score rendering. -/
structure SourceDoc where
  source : String
  page_content : String
  score : String
deriving DecidableEq, Repr

/-- One element of the QA engine's streaming result: the full answer text
accumulated so far and the retrieved source documents. -/
structure QAResp where
  result : Text
  source_documents : List SourceDoc
deriving DecidableEq, Repr

/-- The source-citation rendering shared by chat and stream_chat. -/
def renderSourceDoc (inum : Nat) (doc : SourceDoc) : String :=
  "出处 [" ++ toString (inum + 1) ++ "] " ++ basename doc.source ++ "：\n\n" ++
    doc.page_content ++ "\n\n相关度：" ++ doc.score ++ "\n\n"

/-- The enumerated rendering of all source documents of an answer. -/
def renderSourceDocs (docs : List SourceDoc) : List String :=
  docs.enum.map (fun p => renderSourceDoc p.1 p.2)

/-- Environment of the single-shot chat endpoint: which paths exist and the
lazy sequence get_knowledge_based_answer(query, vs_path, chat_history)
yields (each element a partial result with its updated history). -/
structure ChatEnv where
  pathExists : String → Bool
  engine : String → String → Hist → List (QAResp × Hist)

/-- The vector-store path the chat endpoint actually consults: a hardcoded
literal; the per-knowledge-base resolution is commented out in the source. -/
def hardcoded_vs_path : String :=
  "/root/github/langchain-ChatGLM/vector_store/test_case_v5"

/-- The path chat derives from its knowledge_base_id argument: the argument
is ignored and the hardcoded literal is used. -/
def chat_vs_path (knowledge_base_id : String) : String := hardcoded_vs_path

/-- The ChatMessage pydantic model returned by chat. -/
structure ChatMessage where
  question : String
  response : Text
  history : Hist
  source_documents : List String
deriving DecidableEq, Repr

/-- How a chat call terminates: an uncaught ValueError, an uncaught
NameError (empty generator leaves resp unbound), or a ChatMessage. -/
inductive ChatOutcome where
  | valueError (msg : String)
  | nameError
  | ok (m : ChatMessage)
deriving DecidableEq, Repr

/-- chat in api.py: consult the hardcoded vector-store path, raise
ValueError when it is absent, otherwise drain the engine's stream and
return the final result with rendered citations and the final history. -/
def chat (env : ChatEnv) (knowledge_base_id : String) (question : String)
    (history : Hist) : ChatOutcome :=
  let vs_path := chat_vs_path knowledge_base_id
  if env.pathExists vs_path = false then
    .valueError ("Knowledge base " ++ knowledge_base_id ++ " not found")
  else
    match (env.engine question vs_path history).getLast? with
    | none => .nameError
    | some (resp, hist) =>
      .ok ⟨question, resp.result, hist, renderSourceDocs resp.source_documents⟩

/-- A one-element engine stream used in the concrete chat environments. -/
def respHello : QAResp := ⟨['h', 'i'], [⟨"docs/a.txt", "excerpt", "0.9"⟩]⟩

/-- Environment where only the hardcoded test path exists (kb1 has no index). -/
def envHardcodedOnly : ChatEnv :=
  ⟨fun p => p == hardcoded_vs_path, fun q _ h => [(respHello, h ++ [(q, "hi")])]⟩

/-- Environment where only kb1's own index path exists. -/
def envKb1Only : ChatEnv :=
  ⟨fun p => p == get_vs_path "kb1", fun q _ h => [(respHello, h ++ [(q, "hi")])]⟩

/-- Claim C2: chat is claimed to fail with NotFound exactly when the index
of the knowledge base named by knowledge_base_id is absent. The code
consults only the hardcoded test path: with kb1's index absent but the
hardcoded path present the call succeeds, and with kb1's index present but
the hardcoded path absent the call raises instead. -/
theorem chat_ignores_named_kb_index :
    chat envHardcodedOnly "kb1" "q" [] =
      .ok ⟨"q", ['h', 'i'], [("q", "hi")], renderSourceDocs respHello.source_documents⟩ ∧
    envHardcodedOnly.pathExists (get_vs_path "kb1") = false ∧
    chat envKb1Only "kb1" "q" [] =
      .valueError ("Knowledge base " ++ "kb1" ++ " not found") ∧
    envKb1Only.pathExists (get_vs_path "kb1") = true := by
  refine ⟨rfl, rfl, rfl, rfl⟩

/-- Environment with no existing index path at all. -/
def envNoIndex : ChatEnv := ⟨fun _ => false, fun _ _ _ => []⟩

/-- Claim C10, counterexample: with the hardcoded index path absent, two
chat calls differing only in knowledge_base_id raise ValueErrors whose
messages echo the differing id, so the two calls are not identical. -/
theorem chat_error_message_depends_on_kb_id :
    chat envNoIndex "kb_a" "q" [] ≠ chat envNoIndex "kb_b" "q" [] := by
  decide

/-- Claim C10, amended: both calls always resolve the same (hardcoded)
index location, and whenever that location exists, two chat calls sharing
question and history but differing in knowledge_base_id return identical
results; the only dependence on the id is the text of the error raised
when the hardcoded location is absent. -/
theorem chat_result_independent_of_kb_id (env : ChatEnv) (kb1 kb2 question : String)
    (history : Hist) (h : env.pathExists hardcoded_vs_path = true) :
    chat_vs_path kb1 = chat_vs_path kb2 ∧
    chat env kb1 question history = chat env kb2 question history := by
  refine ⟨rfl, ?_⟩
  unfold chat chat_vs_path
  simp [h]

/-- Environment in which every path exists. -/
def envAllPaths : ChatEnv :=
  ⟨fun _ => true, fun q _ h => [(respHello, h ++ [(q, "hi")])]⟩

/-- Witness for the amended C10 with the hardcoded index present and the
ids kb_a and kb_b. -/
theorem chat_result_independent_of_kb_id_witness :
    chat_vs_path "kb_a" = chat_vs_path "kb_b" ∧
    chat envAllPaths "kb_a" "q" [] = chat envAllPaths "kb_b" "q" [] :=
  chat_result_independent_of_kb_id envAllPaths "kb_a" "kb_b" "q" [] (by rfl)

/-- The delta loop of stream_chat: starting from last_print_len, each
partial result is transmitted as resp.result[last_print_len:], after which
last_print_len becomes len(resp.result). -/
def answerFrames : Nat → List Text → List Text
  | _, [] => []
  | last_print_len, r :: rest => r.drop last_print_len :: answerFrames r.length rest

/-- Joining the deltas computed from a prefix pre onward recovers the last
accumulated text, provided each partial extends the previous one. -/
theorem deltaJoinAux (pre : Text) (l : List Text)
    (h : List.Chain' (fun a b => ∃ t, b = a ++ t) (pre :: l)) :
    pre ++ (answerFrames pre.length l).flatten = (pre :: l).getLastD [] := by
  induction l generalizing pre with
  | nil => simp [answerFrames]
  | cons s rest ih =>
    rw [List.chain'_cons] at h
    obtain ⟨⟨t, ht⟩, hc⟩ := h
    have hdrop : s.drop pre.length = t := by rw [ht, List.drop_left]
    have hrw : answerFrames pre.length (s :: rest) =
        s.drop pre.length :: answerFrames s.length rest := rfl
    have hih := ih s hc
    rw [hrw, List.flatten_cons, ← List.append_assoc, hdrop, ← ht, hih]
    simp [List.getLastD_cons]

/-- Claim C5: for one streaming turn, assuming the engine yields a
non-empty, strictly growing sequence of partials each carrying the full
accumulated answer text (each element extends the previous), the
concatenation of all transmitted deltas equals the final accumulated
answer text, with no duplicated and no missing characters. -/
theorem stream_deltas_join_eq_final (results : List Text) (h1 : results ≠ [])
    (h2 : List.Chain' (fun a b => ∃ t, b = a ++ t) results) :
    (answerFrames 0 results).flatten = results.getLastD [] := by
  match results, h1 with
  | r :: rest, _ =>
    have haux := deltaJoinAux r rest h2
    have hrw : answerFrames 0 (r :: rest) = r.drop 0 :: answerFrames r.length rest := rfl
    rw [hrw, List.flatten_cons, List.drop_zero, haux]

/-- Witness for C5 on the concrete growing stream "h", "hi". -/
theorem stream_deltas_join_eq_final_witness :
    (answerFrames 0 [['h'], ['h', 'i']]).flatten = [['h'], ['h', 'i']].getLastD [] :=
  stream_deltas_join_eq_final [['h'], ['h', 'i']] (by simp)
    (List.chain'_cons.mpr ⟨⟨['i'], rfl⟩, List.chain'_singleton _⟩)

/-- One observable event on the websocket of stream_chat: the error json
frame, the close, an inbound question being received, the start/end json
markers with their turn numbers, one incremental answer-text frame, or an
uncaught Python exception ending the connection. -/
inductive Frame where
  | errorJson (msg : String)
  | closed
  | received (q : String)
  | startMarker (q : String) (turn : Nat)
  | answerText (t : Text)
  | endMarker (q : String) (turn : Nat) (sources : List String)
  | crash (msg : String)
deriving DecidableEq, Repr

/-- Environment of the streaming endpoint: which vector-store paths exist
and the engine's per-call stream of (partial result, updated history). -/
structure StreamEnv where
  pathExists : String → Bool
  engine : String → String → Hist → List (QAResp × Hist)

/-- The while-True body of stream_chat, processing the questions the client
sends before closing: receive, send the start marker with the current turn
number, send the answer deltas, send the end marker with the same turn
number and the rendered citations, thread the updated history, and loop
with turn + 1. An empty engine stream leaves resp unbound (NameError). -/
def streamTurns (env : StreamEnv) (vs_path : String) :
    List String → Hist → Nat → List Frame
  | [], _, _ => []
  | q :: qs, history, turn =>
    let stream := env.engine q vs_path history
    match stream.getLast? with
    | none => [.received q, .startMarker q turn, .crash "NameError: resp is not defined"]
    | some (lastResp, lastHist) =>
      .received q :: .startMarker q turn ::
        ((answerFrames 0 (stream.map (fun p => p.1.result))).map .answerText ++
          (.endMarker q turn (renderSourceDocs lastResp.source_documents) ::
            streamTurns env vs_path qs lastHist (turn + 1)))

/-- stream_chat in api.py: accept, resolve VS_ROOT_PATH/knowledge_base_id,
send a single error json and close when it does not exist, otherwise run
the turn loop starting with empty history and turn 1. -/
def stream_chat (env : StreamEnv) (knowledge_base_id : String)
    (questions : List String) : List Frame :=
  let vs_path := os_path_join VS_ROOT_PATH knowledge_base_id
  if env.pathExists vs_path = false then
    [.errorJson ("Knowledge base " ++ knowledge_base_id ++ " not found"), .closed]
  else streamTurns env vs_path questions [] 1

/-- Claim C8: opening a streaming session on a knowledge base id whose
index location does not exist sends exactly one error frame and closes the
channel, receiving and processing no question at all. -/
theorem stream_chat_unknown_kb_error_close (env : StreamEnv) (kb : String)
    (questions : List String)
    (h : env.pathExists (os_path_join VS_ROOT_PATH kb) = false) :
    stream_chat env kb questions =
      [.errorJson ("Knowledge base " ++ kb ++ " not found"), .closed] ∧
    ∀ q, Frame.received q ∉ stream_chat env kb questions := by
  have h1 : stream_chat env kb questions =
      [.errorJson ("Knowledge base " ++ kb ++ " not found"), .closed] := by
    unfold stream_chat
    simp [h]
  refine ⟨h1, ?_⟩
  intro q hq
  rw [h1] at hq
  simp at hq

/-- A streaming environment with no existing index location at all. -/
def envNoStreams : StreamEnv := ⟨fun _ => false, fun _ _ _ => []⟩

/-- Witness for C8 on the unknown knowledge base id ghost. -/
theorem stream_chat_unknown_kb_error_close_witness :
    stream_chat envNoStreams "ghost" ["q"] =
      [.errorJson ("Knowledge base " ++ "ghost" ++ " not found"), .closed] ∧
    ∀ q, Frame.received q ∉ stream_chat envNoStreams "ghost" ["q"] :=
  stream_chat_unknown_kb_error_close envNoStreams "ghost" ["q"] (by rfl)

/-- Is a frame the receipt of an inbound question. -/
def isReceivedFrame : Frame → Bool
  | .received _ => true
  | _ => false

/-- Is a frame an end marker. -/
def isEndFrame : Frame → Bool
  | .endMarker _ _ _ => true
  | _ => false

/-- The turn number a start marker carries. -/
def startTurnOf : Frame → Option Nat
  | .startMarker _ t => some t
  | _ => none

/-- The turn number an end marker carries. -/
def endTurnOf : Frame → Option Nat
  | .endMarker _ t _ => some t
  | _ => none

/-- Answer-text frames carry no start markers. -/
theorem answerText_filterMap_start (ts : List Text) :
    (ts.map Frame.answerText).filterMap startTurnOf = [] := by
  induction ts with
  | nil => rfl
  | cons a l ih => simpa [startTurnOf] using ih

/-- Answer-text frames carry no end markers. -/
theorem answerText_filterMap_end (ts : List Text) :
    (ts.map Frame.answerText).filterMap endTurnOf = [] := by
  induction ts with
  | nil => rfl
  | cons a l ih => simpa [endTurnOf] using ih

/-- The start markers of the turn loop from turn t carry exactly
t, t + 1, ... in order, one per inbound question. -/
theorem streamTurns_start_turns (env : StreamEnv) (vs : String)
    (hne : ∀ q h, env.engine q vs h ≠ []) :
    ∀ (qs : List String) (h : Hist) (t : Nat),
      (streamTurns env vs qs h t).filterMap startTurnOf = List.range' t qs.length := by
  intro qs
  induction qs with
  | nil => intro h t; rfl
  | cons q qs ih =>
    intro h t
    cases hL : (env.engine q vs h).getLast? with
    | none => exact absurd (by simpa using hL) (hne q h)
    | some p =>
      obtain ⟨lastResp, lastHist⟩ := p
      simp only [streamTurns, hL, List.filterMap_cons, startTurnOf, List.filterMap_append,
        answerText_filterMap_start, List.length_cons, List.range'_succ, List.nil_append]
      rw [ih lastHist (t + 1)]

/-- The end markers of the turn loop from turn t carry exactly
t, t + 1, ... in order, one per inbound question. -/
theorem streamTurns_end_turns (env : StreamEnv) (vs : String)
    (hne : ∀ q h, env.engine q vs h ≠ []) :
    ∀ (qs : List String) (h : Hist) (t : Nat),
      (streamTurns env vs qs h t).filterMap endTurnOf = List.range' t qs.length := by
  intro qs
  induction qs with
  | nil => intro h t; rfl
  | cons q qs ih =>
    intro h t
    cases hL : (env.engine q vs h).getLast? with
    | none => exact absurd (by simpa using hL) (hne q h)
    | some p =>
      obtain ⟨lastResp, lastHist⟩ := p
      simp only [streamTurns, hL, List.filterMap_cons, endTurnOf, List.filterMap_append,
        answerText_filterMap_end, List.length_cons, List.range'_succ, List.nil_append]
      rw [ih lastHist (t + 1)]

/-- In every prefix of a frame list, at most one more question has been
received than end markers sent: the sequential-turns discipline. -/
def recvBounded (l : List Frame) : Prop :=
  ∀ n, (l.take n).countP isReceivedFrame ≤ (l.take n).countP isEndFrame + 1

/-- Inside a turn, between the start and end markers only answer text is
sent, so in every prefix of mid ++ end :: rest the received count stays
at or below the end count. -/
theorem takeCount_mid_end (mid : List Frame) (q : String) (t : Nat) (s : List String)
    (rest : List Frame)
    (hmid : ∀ f ∈ mid, isReceivedFrame f = false ∧ isEndFrame f = false)
    (hrest : recvBounded rest) :
    ∀ n, ((mid ++ Frame.endMarker q t s :: rest).take n).countP isReceivedFrame ≤
         ((mid ++ Frame.endMarker q t s :: rest).take n).countP isEndFrame := by
  induction mid with
  | nil =>
    intro n
    cases n with
    | zero => simp
    | succ k =>
      have hk := hrest k
      simp only [List.nil_append, List.take_succ_cons, List.countP_cons,
        isReceivedFrame, isEndFrame]
      simp only [Bool.false_eq_true, if_false, if_true, reduceIte]
      omega
  | cons m mid ih =>
    intro n
    cases n with
    | zero => simp
    | succ k =>
      have hm := hmid m (List.mem_cons_self m mid)
      have ih' := ih (fun f hf => hmid f (List.mem_cons_of_mem m hf)) k
      simp only [List.cons_append, List.take_succ_cons, List.countP_cons, hm.1, hm.2]
      simpa using ih'

/-- Prepending one full turn block preserves the sequential-turns bound. -/
theorem recvBounded_block (q q' : String) (t : Nat) (mid : List Frame) (t' : Nat)
    (s : List String) (rest : List Frame)
    (hmid : ∀ f ∈ mid, isReceivedFrame f = false ∧ isEndFrame f = false)
    (hrest : recvBounded rest) :
    recvBounded (Frame.received q :: Frame.startMarker q' t' ::
      (mid ++ Frame.endMarker q t s :: rest)) := by
  intro n
  cases n with
  | zero => simp
  | succ k =>
    cases k with
    | zero => simp [isReceivedFrame, isEndFrame]
    | succ j =>
      have hj := takeCount_mid_end mid q t s rest hmid hrest j
      simp only [List.take_succ_cons, List.countP_cons, isReceivedFrame, isEndFrame]
      simp only [Bool.false_eq_true, if_false, if_true, reduceIte]
      omega

/-- The turn loop obeys the sequential-turns bound from any starting turn. -/
theorem streamTurns_recvBounded (env : StreamEnv) (vs : String) :
    ∀ (qs : List String) (h : Hist) (t : Nat),
      recvBounded (streamTurns env vs qs h t) := by
  intro qs
  induction qs with
  | nil =>
    intro h t n
    simp [streamTurns]
  | cons q qs ih =>
    intro h t
    cases hL : (env.engine q vs h).getLast? with
    | none =>
      intro n
      simp only [streamTurns, hL]
      cases n with
      | zero => simp
      | succ k =>
        cases k with
        | zero => simp [isReceivedFrame, isEndFrame]
        | succ j =>
          cases j with
          | zero => simp [isReceivedFrame, isEndFrame, List.countP_cons]
          | succ i => simp [isReceivedFrame, isEndFrame, List.countP_cons, List.take_succ_cons]
    | some p =>
      obtain ⟨lastResp, lastHist⟩ := p
      simp only [streamTurns, hL]
      refine recvBounded_block q q t _ t _ _ ?_ (ih lastHist (t + 1))
      intro f hf
      obtain ⟨txt, _, htxt⟩ := List.mem_map.mp hf
      rw [← htxt]
      exact ⟨rfl, rfl⟩

/-- Claim C7: within a streaming session on an existing knowledge base, the
turn numbers carried by the start markers and by the end markers are
exactly 1, 2, ..., one per question, strictly increasing by 1 from 1 (and
each fresh session restarts from 1 since the trace of every session starts
the loop at turn 1); and in every prefix of the session's frame trace at
most one more question has been received than end markers emitted, i.e. a
new question is accepted only after the previous turn's end marker. -/
theorem stream_chat_turn_discipline (env : StreamEnv) (kb : String)
    (questions : List String)
    (hvs : env.pathExists (os_path_join VS_ROOT_PATH kb) = true)
    (hne : ∀ q h, env.engine q (os_path_join VS_ROOT_PATH kb) h ≠ []) :
    (stream_chat env kb questions).filterMap startTurnOf =
      List.range' 1 questions.length ∧
    (stream_chat env kb questions).filterMap endTurnOf =
      List.range' 1 questions.length ∧
    recvBounded (stream_chat env kb questions) := by
  have hopen : stream_chat env kb questions =
      streamTurns env (os_path_join VS_ROOT_PATH kb) questions [] 1 := by
    unfold stream_chat
    simp [hvs]
  rw [hopen]
  exact ⟨streamTurns_start_turns env _ hne questions [] 1,
    streamTurns_end_turns env _ hne questions [] 1,
    streamTurns_recvBounded env _ questions [] 1⟩

/-- A streaming environment in which every path exists and the engine
answers every question with the single complete partial "ok". -/
def envStreamOk : StreamEnv :=
  ⟨fun _ => true, fun q _ h => [(⟨['o', 'k'], []⟩, h ++ [(q, "ok")])]⟩

/-- Witness for C7 on a concrete two-question session. -/
theorem stream_chat_turn_discipline_witness :
    (stream_chat envStreamOk "kb1" ["q1", "q2"]).filterMap startTurnOf =
      List.range' 1 (["q1", "q2"] : List String).length ∧
    (stream_chat envStreamOk "kb1" ["q1", "q2"]).filterMap endTurnOf =
      List.range' 1 (["q1", "q2"] : List String).length ∧
    recvBounded (stream_chat envStreamOk "kb1" ["q1", "q2"]) :=
  stream_chat_turn_discipline envStreamOk "kb1" ["q1", "q2"] (by rfl)
    (fun q h => List.cons_ne_nil _ _)

/-- The nested event payload of a message event as feishu_event_async reads
it: the originating message id and the text field parsed from the message
content json (none when the content is not of that shape). -/
structure FeishuEventPayload where
  message_id : String
  content_text : Option String
deriving DecidableEq, Repr

/-- The FeiShu pydantic envelope received by the webhook endpoint. -/
structure FeiShu where
  challenge : Option String
  type : Option String
  token : Option String
  header : Option (List (String × String))
  event : Option FeishuEventPayload
deriving DecidableEq, Repr

/-- Environment of the webhook background task: which paths exist, the QA
engine stream, the tenant access token feishu_auth obtains (none when the
auth call fails), and whether the reply post to a message id succeeds. -/
structure FeishuEnv where
  pathExists : String → Bool
  engine : String → String → Hist → List (QAResp × Hist)
  tenant_access_token : Option String
  replyDelivered : String → Bool

/-- How the detached background task ends: an uncaught exception inside
the task, or a reply posted to the originating message id, carrying the
bearer token used and whether the delivery succeeded. -/
inductive TaskOutcome where
  | crashed (msg : String)
  | replied (message_id : String) (body : Text) (token : String) (ok : Bool)
deriving DecidableEq, Repr

/-- feishu_event_async in api.py: extract the question text from the event
payload, run the single-shot answer against the hardcoded vector store,
fetch a tenant access token, and post the answer back addressed to the
originating message id; any failure ends only this detached task. -/
def feishu_event_async (env : FeishuEnv) (fei_shu : FeiShu) : TaskOutcome :=
  match fei_shu.event with
  | none => .crashed "TypeError: NoneType is not subscriptable"
  | some ev =>
    match ev.content_text with
    | none => .crashed "KeyError: text"
    | some query =>
      if env.pathExists hardcoded_vs_path = false then
        .crashed ("ValueError: Knowledge base " ++ hardcoded_vs_path ++ " not found")
      else
        match (env.engine query hardcoded_vs_path []).getLast? with
        | none => .crashed "NameError: resp is not defined"
        | some (resp, _) =>
          match env.tenant_access_token with
          | none => .crashed "auth call failed"
          | some tok =>
            .replied ev.message_id resp.result tok (env.replyDelivered ev.message_id)

/-- feishu_event in api.py: schedule feishu_event_async as a detached task
(asyncio.create_task) and return the received envelope at once. -/
def feishu_event (env : FeishuEnv) (fei_shu : FeiShu) : FeiShu × TaskOutcome :=
  (fei_shu, feishu_event_async env fei_shu)

/-- Claim C9: the webhook handler returns the received envelope at once for
every inbound event — for the handshake event that echo carries the
challenge the platform expects — and the returned value is the same under
every environment, i.e. it does not depend on the detached background
task's outcome. -/
theorem feishu_event_immediate_echo (env env' : FeishuEnv) (fei_shu : FeiShu) :
    (feishu_event env fei_shu).1 = fei_shu ∧
    (feishu_event env fei_shu).1.challenge = fei_shu.challenge ∧
    (feishu_event env fei_shu).1 = (feishu_event env' fei_shu).1 :=
  ⟨rfl, rfl, rfl⟩
